import Mathlib

/-!
Verification of the russh-agent client protocol engine and packet builders.

The development shallowly embeds the code of `src/client/mod.rs`
(`Client::run`, the message-handling match and the select loop) and
`src/packet/unlock.rs` (`Unlock::into_packet`).  Parts of the repository
referenced by that code but whose source is not available (the byte-string
encoder `put_string` from `utils.rs`, the `Packet`/`PacketKind` types from
`packet/mod.rs`, and the packet builders other than `Unlock`) are modelled
from the specification, as marked on each definition.

Byte sequences are `List Nat`, each element standing for one byte; 32-bit
wire integers are encoded with explicit `% 256` per byte.  The asynchronous
event loop of `Client::run` is embedded as a step function over an explicit
engine state, driven by a schedule of events: each event says which branch
of the `tokio::select!` fires and with what outcome (the control channel
delivering or being closed, a `read_packet` result, the success or failure
of a stream write or of a response-channel send).
-/

/-- A byte sequence (`bytes::Bytes` / `BytesMut` in the source). -/
abbrev Bytes := List Nat

/-- Error classes of the crate `Error` type as they reach `Client::run`:
encoding overflow from the byte-string encoder, a stream write failure, a
stream read / framing failure, and a response-channel send failure. -/
inductive AgentError
  | encoding
  | ioWrite
  | ioRead
  | sendError
  deriving DecidableEq

/-- The 4-byte big-endian encoding of a 32-bit value. -/
def u32be (n : Nat) : Bytes :=
  [n / 2 ^ 24 % 256, n / 2 ^ 16 % 256, n / 2 ^ 8 % 256, n % 256]

/-- Modelled from the spec: the byte-string encoder of `utils.rs` (not under
`src/`).  Given a byte sequence of length L (L must fit in 32 bits), emit
4 bytes of L in big-endian order followed by the L bytes, appended to the
buffer; it fails with an encoding error when a component length overflows
the 4-byte length field. -/
def put_string (buf : Bytes) (s : Bytes) : Except AgentError Bytes :=
  if s.length < 2 ^ 32 then
    Except.ok (buf ++ u32be s.length ++ s)
  else
    Except.error AgentError.encoding

/-- Modelled from the spec: the closed `PacketKind` enumeration of
`packet/mod.rs` (not under `src/`), with the fixed numeric wire codes of the
ssh-agent protocol.  The `Unlock` code 23 is fixed by the unit test in
`src/packet/unlock.rs`. -/
inductive PacketKind
  | Failure
  | Success
  | RequestIdentities
  | IdentitiesAnswer
  | SignRequest
  | SignResponse
  | AddIdentity
  | RemoveIdentity
  | RemoveAllIdentities
  | Lock
  | Unlock
  | AddIdConstrained
  deriving DecidableEq

/-- The numeric wire code of a kind (the `Into<u8>` conversion). -/
def PacketKind.code : PacketKind → Nat
  | PacketKind.Failure => 5
  | PacketKind.Success => 6
  | PacketKind.RequestIdentities => 11
  | PacketKind.IdentitiesAnswer => 12
  | PacketKind.SignRequest => 13
  | PacketKind.SignResponse => 14
  | PacketKind.AddIdentity => 17
  | PacketKind.RemoveIdentity => 18
  | PacketKind.RemoveAllIdentities => 19
  | PacketKind.Lock => 22
  | PacketKind.Unlock => 23
  | PacketKind.AddIdConstrained => 25

/-- Modelled from the spec: the predicate distinguishing response kinds
from request kinds, used to validate inbound frames. -/
def PacketKind.is_response : PacketKind → Bool
  | PacketKind.Failure => true
  | PacketKind.Success => true
  | PacketKind.IdentitiesAnswer => true
  | PacketKind.SignResponse => true
  | _ => false

/-- Modelled from the spec: the wire-frame abstraction of `packet/mod.rs`
(not under `src/`): a kind tag and a payload byte sequence. -/
structure Packet where
  kind : PacketKind
  payload : Bytes
  deriving DecidableEq

/-- The `Unlock` request builder struct of `src/packet/unlock.rs`. -/
structure Unlock where
  passphrase : Bytes

/-- `Unlock::new` from `src/packet/unlock.rs`. -/
def Unlock.new (passphrase : Bytes) : Unlock :=
  { passphrase := passphrase }

/-- `Unlock::into_packet` from `src/packet/unlock.rs`: sets the kind to
`PacketKind::Unlock`, then builds the payload as the kind byte followed by
the length-prefixed passphrase (the match is Rust's `?` on `put_string`). -/
def Unlock.into_packet (u : Unlock) : Except AgentError Packet :=
  match put_string [PacketKind.Unlock.code] u.passphrase with
  | Except.error e => Except.error e
  | Except.ok payload => Except.ok { kind := PacketKind.Unlock, payload := payload }

/-- Modelled from the spec: the `Lock` builder (its source is not under
`src/`); layout `tag, passphrase (length-prefixed)`. -/
structure Lock where
  passphrase : Bytes

/-- Modelled from the spec: `Lock::new`. -/
def Lock.new (passphrase : Bytes) : Lock :=
  { passphrase := passphrase }

/-- Modelled from the spec: `Lock::into_packet`. -/
def Lock.into_packet (l : Lock) : Except AgentError Packet :=
  match put_string [PacketKind.Lock.code] l.passphrase with
  | Except.error e => Except.error e
  | Except.ok payload => Except.ok { kind := PacketKind.Lock, payload := payload }

/-- Modelled from the spec: the `AddIdentity` builder (its source is not
under `src/`); layout `tag, key-type (length-prefixed), key-blob
(length-prefixed), comment (length-prefixed)`. -/
structure AddIdentity where
  kind : Bytes
  key_blob : Bytes
  comment : Bytes

/-- Modelled from the spec: `AddIdentity::new`. -/
def AddIdentity.new (kind key_blob comment : Bytes) : AddIdentity :=
  { kind := kind, key_blob := key_blob, comment := comment }

/-- Modelled from the spec: `AddIdentity::into_packet`. -/
def AddIdentity.into_packet (a : AddIdentity) : Except AgentError Packet :=
  match put_string [PacketKind.AddIdentity.code] a.kind with
  | Except.error e => Except.error e
  | Except.ok p1 =>
    match put_string p1 a.key_blob with
    | Except.error e => Except.error e
    | Except.ok p2 =>
      match put_string p2 a.comment with
      | Except.error e => Except.error e
      | Except.ok p3 => Except.ok { kind := PacketKind.AddIdentity, payload := p3 }

/-- Modelled from the spec: the `AddIdentityConstrained` builder (its source
is not under `src/`); layout is the three `AddIdentity` fields followed by
the raw constraint bytes appended unframed. -/
structure AddIdentityConstrained where
  kind : Bytes
  key_blob : Bytes
  comment : Bytes
  constraints : Bytes

/-- Modelled from the spec: `AddIdentityConstrained::new`. -/
def AddIdentityConstrained.new (kind key_blob comment constraints : Bytes) :
    AddIdentityConstrained :=
  { kind := kind, key_blob := key_blob, comment := comment, constraints := constraints }

/-- Modelled from the spec: `AddIdentityConstrained::into_packet`. -/
def AddIdentityConstrained.into_packet (a : AddIdentityConstrained) :
    Except AgentError Packet :=
  match put_string [PacketKind.AddIdConstrained.code] a.kind with
  | Except.error e => Except.error e
  | Except.ok p1 =>
    match put_string p1 a.key_blob with
    | Except.error e => Except.error e
    | Except.ok p2 =>
      match put_string p2 a.comment with
      | Except.error e => Except.error e
      | Except.ok p3 =>
        Except.ok { kind := PacketKind.AddIdConstrained, payload := p3 ++ a.constraints }

/-- Modelled from the spec: the `RemoveIdentity` builder (its source is not
under `src/`); layout `tag, key-blob (length-prefixed)`. -/
structure RemoveIdentity where
  key_blob : Bytes

/-- Modelled from the spec: `RemoveIdentity::new`. -/
def RemoveIdentity.new (key_blob : Bytes) : RemoveIdentity :=
  { key_blob := key_blob }

/-- Modelled from the spec: `RemoveIdentity::into_packet`. -/
def RemoveIdentity.into_packet (r : RemoveIdentity) : Except AgentError Packet :=
  match put_string [PacketKind.RemoveIdentity.code] r.key_blob with
  | Except.error e => Except.error e
  | Except.ok payload => Except.ok { kind := PacketKind.RemoveIdentity, payload := payload }

/-- Modelled from the spec: the `RemoveAll` builder (its source is not under
`src/`); tag only, no body. -/
structure RemoveAll where
  deriving DecidableEq

/-- Modelled from the spec: `RemoveAll::into_packet`. -/
def RemoveAll.into_packet (_ : RemoveAll) : Except AgentError Packet :=
  Except.ok { kind := PacketKind.RemoveAllIdentities, payload := [PacketKind.RemoveAllIdentities.code] }

/-- Modelled from the spec: the `RequestIdentities` builder (its source is
not under `src/`); tag only, no body. -/
structure RequestIdentities where
  deriving DecidableEq

/-- Modelled from the spec: `RequestIdentities::into_packet`. -/
def RequestIdentities.into_packet (_ : RequestIdentities) : Except AgentError Packet :=
  Except.ok { kind := PacketKind.RequestIdentities, payload := [PacketKind.RequestIdentities.code] }

/-- Modelled from the spec: the `SignRequest` builder (its source is not
under `src/`); layout `tag, key-blob (length-prefixed), data
(length-prefixed), flags (4-byte big-endian)`. -/
structure SignRequest where
  key : Bytes
  data : Bytes
  flags : Nat

/-- Modelled from the spec: `SignRequest::new`. -/
def SignRequest.new (key data : Bytes) (flags : Nat) : SignRequest :=
  { key := key, data := data, flags := flags }

/-- Modelled from the spec: `SignRequest::into_packet`. -/
def SignRequest.into_packet (s : SignRequest) : Except AgentError Packet :=
  match put_string [PacketKind.SignRequest.code] s.key with
  | Except.error e => Except.error e
  | Except.ok p1 =>
    match put_string p1 s.data with
    | Except.error e => Except.error e
    | Except.ok p2 =>
      Except.ok { kind := PacketKind.SignRequest, payload := p2 ++ u32be s.flags }

/-- The application-facing command enum carried by the control channel
(`client/message.rs` is not under `src/`, but the variants and their
builder mapping are fixed by the exhaustive match in `Client::run` in
`src/client/mod.rs`). -/
inductive Message
  | Add (kind key_blob comment : Bytes)
  | AddConstrained (kind key_blob comment constraints : Bytes)
  | Remove (key_blob : Bytes)
  | RemoveAll
  | List
  | Sign (key data : Bytes) (flags : Nat)
  | Lock (passphrase : Bytes)
  | Unlock (passphrase : Bytes)
  | Shutdown
  deriving DecidableEq

/-- The message-handling match of `Client::run` (src/client/mod.rs lines
135-145): maps a received `Message` to the pair `(disconnect, pkt_opt)`,
propagating any builder error exactly as the `?` operator does. -/
def handle_message : Message → Except AgentError (Bool × Option Packet)
  | Message.Add kind key_blob comment =>
    match (AddIdentity.new kind key_blob comment).into_packet with
    | Except.error e => Except.error e
    | Except.ok pkt => Except.ok (false, some pkt)
  | Message.AddConstrained kind key_blob comment constraints =>
    match (AddIdentityConstrained.new kind key_blob comment constraints).into_packet with
    | Except.error e => Except.error e
    | Except.ok pkt => Except.ok (false, some pkt)
  | Message.Remove key_blob =>
    match (RemoveIdentity.new key_blob).into_packet with
    | Except.error e => Except.error e
    | Except.ok pkt => Except.ok (false, some pkt)
  | Message.RemoveAll =>
    match RemoveAll.into_packet {} with
    | Except.error e => Except.error e
    | Except.ok pkt => Except.ok (false, some pkt)
  | Message.List =>
    match RequestIdentities.into_packet {} with
    | Except.error e => Except.error e
    | Except.ok pkt => Except.ok (false, some pkt)
  | Message.Sign key data flags =>
    match (SignRequest.new key data flags).into_packet with
    | Except.error e => Except.error e
    | Except.ok pkt => Except.ok (false, some pkt)
  | Message.Lock passphrase =>
    match (Lock.new passphrase).into_packet with
    | Except.error e => Except.error e
    | Except.ok pkt => Except.ok (false, some pkt)
  | Message.Unlock passphrase =>
    match (Unlock.new passphrase).into_packet with
    | Except.error e => Except.error e
    | Except.ok pkt => Except.ok (false, some pkt)
  | Message.Shutdown => Except.ok (true, none)

/-- The observable state of one invocation of `Client::run`: the contents
of the bounded control channel (queue plus whether every sender has been
dropped), the packets written to the stream so far, the payloads forwarded
on the response channel so far, counts of the recorded (logged) read errors
and protocol anomalies, and a marker `fallbackHit` that is set exactly when
the final `else \x7b disconnected = true \x7d` arm of the message-handling
if-chain executes. -/
structure EngineState where
  queue : List Message
  ctlClosed : Bool
  written : List Packet
  forwarded : List Bytes
  readErrors : Nat
  anomalies : Nat
  fallbackHit : Bool
  deriving DecidableEq

/-- The engine state at entry to `Client::run`: nothing written, nothing
forwarded, nothing recorded. -/
def initState (queue : List Message) (ctlClosed : Bool) : EngineState :=
  { queue := queue, ctlClosed := ctlClosed, written := [], forwarded := [],
    readErrors := 0, anomalies := 0, fallbackHit := false }

/-- One firing of the `tokio::select!` in `Client::run`: either the control
branch becomes ready (with the stream's answer to a subsequent
`write_packet`, if one happens), or the read branch completes with a
`read_packet` result (with whether a subsequent response-channel `send`
succeeds, i.e. whether the application still holds the receiver). -/
inductive Event
  | ctl (writeRes : Except AgentError Unit)
  | net (res : Except AgentError Packet) (sendOk : Bool)

/-- Outcome of one loop iteration: continue looping in a new state, or
leave the loop returning a result (either `Ok(())` after `disconnected`
became true, or an error propagated by `?`). -/
inductive StepOut
  | next (s : EngineState)
  | done (r : Except AgentError Unit) (s : EngineState)

/-- The engine state an iteration outcome carries. -/
def StepOut.state : StepOut → EngineState
  | StepOut.next s => s
  | StepOut.done _ s => s

/-- One iteration of the `while !disconnected` loop of `Client::run`
(src/client/mod.rs lines 130-175), for the select branch that fired:

* control branch with a queued message: run `handle_message`; a builder
  error propagates via `?`; on `(true, None)` (Shutdown) set `disconnected`;
  on `Some(pkt)` write it, a write failure propagating via `?`; the final
  `else` sets `disconnected` and is marked by `fallbackHit`;
* control branch with the channel closed: `recv` returned `None`, set
  `disconnected`;
* read branch: a failed `read_packet` is recorded and the loop continues; a
  packet whose kind is not a response kind is recorded and not forwarded;
  otherwise its payload is sent on the response channel, a send failure
  propagating via `?`. -/
def step (s : EngineState) (e : Event) : StepOut :=
  match e with
  | Event.ctl writeRes =>
    match s.queue with
    | [] =>
      if s.ctlClosed then
        StepOut.done (Except.ok ()) s
      else
        StepOut.next s
    | msg :: rest =>
      match handle_message msg with
      | Except.error err => StepOut.done (Except.error err) { s with queue := rest }
      | Except.ok (disconnect, pktOpt) =>
        if disconnect && pktOpt.isNone then
          StepOut.done (Except.ok ()) { s with queue := rest }
        else
          match pktOpt with
          | some pkt =>
            match writeRes with
            | Except.ok _ =>
                StepOut.next { s with queue := rest, written := s.written ++ [pkt] }
            | Except.error err =>
                StepOut.done (Except.error err) { s with queue := rest }
          | none =>
              StepOut.done (Except.ok ()) { s with queue := rest, fallbackHit := true }
  | Event.net res sendOk =>
    match res with
    | Except.ok packet =>
      if packet.kind.is_response then
        if sendOk then
          StepOut.next { s with forwarded := s.forwarded ++ [packet.payload] }
        else
          StepOut.done (Except.error AgentError.sendError) s
      else
        StepOut.next { s with anomalies := s.anomalies + 1 }
    | Except.error _ => StepOut.next { s with readErrors := s.readErrors + 1 }

/-- How far `Client::run` got under a finite schedule: it returned a
result, or the schedule ran out while the loop was still running. -/
inductive RunOutcome
  | finished (r : Except AgentError Unit)
  | pending

/-- `Client::run` driven by a finite schedule of select firings: processes
exactly one event per iteration until `disconnected` (returning `Ok(())`)
or an error propagates; events after termination are never processed. -/
def run (s : EngineState) : List Event → RunOutcome × EngineState
  | [] => (RunOutcome.pending, s)
  | e :: rest =>
    match step s e with
    | StepOut.done r s2 => (RunOutcome.finished r, s2)
    | StepOut.next s2 => run s2 rest

/-- C1: For every state of the engine, if the control channel delivers
`Message::Shutdown` to `Client::run`, then `run` terminates and returns
`Ok(())` without writing any further packet to the stream, and any Messages
still queued behind the Shutdown in the control channel are never consumed:
the final state only pops the Shutdown itself, leaving the written packets,
forwarded payloads and the rest of the queue untouched, and all later
schedule events are never processed. -/
theorem claim_C1 (s : EngineState) (rest : List Message)
    (w : Except AgentError Unit) (evs : List Event)
    (h : s.queue = Message.Shutdown :: rest) :
    run s (Event.ctl w :: evs) =
      (RunOutcome.finished (Except.ok ()), { s with queue := rest }) := by
  obtain ⟨q, c, wr, fwd, re, an, fb⟩ := s
  simp only at h
  subst h
  rfl

/-- Witness for C1 at a concrete state with a `List` message queued behind
the Shutdown. -/
theorem claim_C1_witness :
    (initState [Message.Shutdown, Message.List] false).queue
        = Message.Shutdown :: [Message.List] ∧
    run (initState [Message.Shutdown, Message.List] false) [Event.ctl (Except.ok ())] =
      (RunOutcome.finished (Except.ok ()),
        { initState [Message.Shutdown, Message.List] false with queue := [Message.List] }) :=
  ⟨rfl, claim_C1 (initState [Message.Shutdown, Message.List] false) [Message.List]
    (Except.ok ()) [] rfl⟩

/-- C2: for every packet successfully read off the stream by `Client::run`,
if the packet's kind is not a response kind then its payload is never sent
on the response channel: the iteration only records the anomaly and the
loop continues, with the forwarded list unchanged. -/
theorem claim_C2 (s : EngineState) (pkt : Packet) (sendOk : Bool) (evs : List Event)
    (h : pkt.kind.is_response = false) :
    run s (Event.net (Except.ok pkt) sendOk :: evs) =
      run { s with anomalies := s.anomalies + 1 } evs := by
  simp [run, step, h]

/-- Witness for C2 at a concrete request-shaped packet. -/
theorem claim_C2_witness :
    (PacketKind.RequestIdentities : PacketKind).is_response = false ∧
    run (initState [] false)
        [Event.net (Except.ok { kind := PacketKind.RequestIdentities, payload := [11] }) true] =
      run { initState [] false with anomalies := 0 + 1 } [] :=
  ⟨rfl, claim_C2 (initState [] false)
    { kind := PacketKind.RequestIdentities, payload := [11] } true [] rfl⟩

/-- C3: for every packet successfully read off the stream by `Client::run`
whose kind is a response kind (and whose forwarding send succeeds), exactly
one value is sent on the response channel for that packet — exactly one
element is appended to the forwarded list — and that value is byte-for-byte
the packet's payload, including its leading kind byte. -/
theorem claim_C3 (s : EngineState) (pkt : Packet) (evs : List Event)
    (h : pkt.kind.is_response = true) :
    run s (Event.net (Except.ok pkt) true :: evs) =
      run { s with forwarded := s.forwarded ++ [pkt.payload] } evs := by
  simp [run, step, h]

/-- Witness for C3 at a concrete success response packet. -/
theorem claim_C3_witness :
    (PacketKind.Success : PacketKind).is_response = true ∧
    run (initState [] false)
        [Event.net (Except.ok { kind := PacketKind.Success, payload := [6, 1, 2] }) true] =
      run { initState [] false with forwarded := [] ++ [[6, 1, 2]] } [] :=
  ⟨rfl, claim_C3 (initState [] false)
    { kind := PacketKind.Success, payload := [6, 1, 2] } [] rfl⟩

/-- C5: if the control channel is closed (`receiver.recv()` yields no
`Message` because no sender exists), `Client::run` terminates and returns a
success result, not an error. -/
theorem claim_C5 (s : EngineState) (w : Except AgentError Unit) (evs : List Event)
    (hq : s.queue = []) (hc : s.ctlClosed = true) :
    run s (Event.ctl w :: evs) = (RunOutcome.finished (Except.ok ()), s) := by
  obtain ⟨q, c, wr, fwd, re, an, fb⟩ := s
  simp only at hq hc
  subst hq
  subst hc
  rfl

/-- Witness for C5 at the empty, closed control channel. -/
theorem claim_C5_witness :
    (initState [] true).queue = [] ∧ (initState [] true).ctlClosed = true ∧
    run (initState [] true) [Event.ctl (Except.ok ())] =
      (RunOutcome.finished (Except.ok ()), initState [] true) :=
  ⟨rfl, rfl, claim_C5 (initState [] true) (Except.ok ()) [] rfl rfl⟩

/-- C6: every failure of `Packet::read_packet` inside `Client::run` is
non-fatal: `run` does not return an error for it; the error is recorded
(the read-error count increases by one) and the loop continues with the
next iteration, nothing written and nothing forwarded for it. -/
theorem claim_C6 (s : EngineState) (err : AgentError) (sendOk : Bool)
    (evs : List Event) :
    run s (Event.net (Except.error err) sendOk :: evs) =
      run { s with readErrors := s.readErrors + 1 } evs := by
  simp [run, step]

/-- C7: for every non-Shutdown `Message` received by `Client::run`, if
building its packet fails (encoding error) or writing the built packet to
the stream fails (I/O error), then `run` terminates immediately — no later
schedule event is processed — and returns that error. -/
theorem claim_C7 :
    (∀ (s : EngineState) (m : Message) (rest : List Message)
        (w : Except AgentError Unit) (evs : List Event) (err : AgentError),
        s.queue = m :: rest → handle_message m = Except.error err →
        run s (Event.ctl w :: evs) =
          (RunOutcome.finished (Except.error err), { s with queue := rest })) ∧
    (∀ (s : EngineState) (m : Message) (rest : List Message) (evs : List Event)
        (err : AgentError) (pkt : Packet),
        s.queue = m :: rest → handle_message m = Except.ok (false, some pkt) →
        run s (Event.ctl (Except.error err) :: evs) =
          (RunOutcome.finished (Except.error err), { s with queue := rest })) := by
  constructor
  · intro s m rest w evs err hq hm
    obtain ⟨q, c, wr, fwd, re, an, fb⟩ := s
    simp only at hq
    subst hq
    simp [run, step, hm]
  · intro s m rest evs err pkt hq hm
    obtain ⟨q, c, wr, fwd, re, an, fb⟩ := s
    simp only at hq
    subst hq
    simp [run, step, hm]

/-- An `Unlock` whose passphrase length does not fit the 4-byte length
field fails to build, with the encoding error of `put_string`. -/
theorem Unlock_into_packet_overflow (p : Bytes) (h : ¬ p.length < 2 ^ 32) :
    (Unlock.new p).into_packet = Except.error AgentError.encoding := by
  unfold Unlock.new Unlock.into_packet put_string
  rw [if_neg h]

/-- A builder failure on `Message::Unlock` propagates out of the
message-handling match unchanged, as Rust's `?` does. -/
theorem handle_message_unlock_err (p : Bytes) (e : AgentError)
    (h : (Unlock.new p).into_packet = Except.error e) :
    handle_message (Message.Unlock p) = Except.error e := by
  simp only [handle_message]
  rw [h]

/-- A passphrase of length exactly `2 ^ 32` overflows the length field. -/
theorem replicate_pow_not_lt :
    ¬ (List.replicate (2 ^ 32) (0 : Nat)).length < 2 ^ 32 := by
  rw [List.length_replicate]
  exact lt_irrefl _

/-- Witness for C7: the write-failure half at a concrete `List` message
whose `RequestIdentities` packet the stream refuses, and the build-failure
half at an `Unlock` whose passphrase length overflows the 4-byte length
field. -/
theorem claim_C7_witness :
    (run (initState [Message.List] false) [Event.ctl (Except.error AgentError.ioWrite)] =
      (RunOutcome.finished (Except.error AgentError.ioWrite),
        { initState [Message.List] false with queue := [] })) ∧
    (run (initState [Message.Unlock (List.replicate (2 ^ 32) 0)] false)
        [Event.ctl (Except.ok ())] =
      (RunOutcome.finished (Except.error AgentError.encoding),
        { initState [Message.Unlock (List.replicate (2 ^ 32) 0)] false with queue := [] })) :=
  ⟨claim_C7.2 (initState [Message.List] false) Message.List [] []
      AgentError.ioWrite { kind := PacketKind.RequestIdentities, payload := [11] } rfl rfl,
    claim_C7.1 (initState [Message.Unlock (List.replicate (2 ^ 32) 0)] false)
      (Message.Unlock (List.replicate (2 ^ 32) 0)) [] (Except.ok ()) []
      AgentError.encoding rfl
      (handle_message_unlock_err _ _
        (Unlock_into_packet_overflow _ replicate_pow_not_lt))⟩

/-- C8: if sending a forwarded response payload on the response channel
fails because the application has dropped the receiving end, `Client::run`
terminates and returns an error. -/
theorem claim_C8 (s : EngineState) (pkt : Packet) (evs : List Event)
    (h : pkt.kind.is_response = true) :
    run s (Event.net (Except.ok pkt) false :: evs) =
      (RunOutcome.finished (Except.error AgentError.sendError), s) := by
  simp [run, step, h]

/-- Witness for C8 at a concrete success response packet with the receiver
dropped. -/
theorem claim_C8_witness :
    (PacketKind.Success : PacketKind).is_response = true ∧
    run (initState [] false)
        [Event.net (Except.ok { kind := PacketKind.Success, payload := [6] }) false] =
      (RunOutcome.finished (Except.error AgentError.sendError), initState [] false) :=
  ⟨rfl, claim_C8 (initState [] false)
    { kind := PacketKind.Success, payload := [6] } [] rfl⟩

/-- C4 counterexample: for a passphrase of length `2 ^ 32` the length
field overflows, so `Unlock::new(P).into_packet()` yields an encoding
error rather than a `Packet`; the claim's universal quantification over
every passphrase byte sequence fails at this input. -/
theorem claim_C4_counterexample :
    (Unlock.new (List.replicate (2 ^ 32) 0)).into_packet =
      Except.error AgentError.encoding :=
  Unlock_into_packet_overflow _ replicate_pow_not_lt

/-- C4 (amended): for every passphrase byte sequence P whose length fits
the 4-byte length field, `Unlock::new(P).into_packet()` yields a `Packet`
whose kind is `PacketKind::Unlock` and whose payload is the one-byte
Unlock kind tag 23 followed by the 4-byte big-endian length of P followed
by the bytes of P. -/
theorem claim_C4 (P : Bytes) (h : P.length < 2 ^ 32) :
    (Unlock.new P).into_packet =
      Except.ok { kind := PacketKind.Unlock, payload := 23 :: (u32be P.length ++ P) } := by
  unfold Unlock.new Unlock.into_packet put_string
  rw [if_pos h]
  rfl

/-- Witness for C4 at the passphrase `"test"`, reproducing the expected
bytes of the unit test in `src/packet/unlock.rs`. -/
theorem claim_C4_witness :
    ([116, 101, 115, 116] : Bytes).length < 2 ^ 32 ∧
    (Unlock.new [116, 101, 115, 116]).into_packet =
      Except.ok (Packet.mk PacketKind.Unlock [23, 0, 0, 0, 4, 116, 101, 115, 116]) :=
  ⟨by decide, by
    have h := claim_C4 [116, 101, 115, 116] (by decide)
    simpa [u32be] using h⟩

/-- A successful `put_string` call preserves the first byte of a nonempty
buffer: it only appends the length prefix and the data. -/
theorem put_string_head (buf s out : Bytes) (a : Nat)
    (hh : buf.head? = some a) (h : put_string buf s = Except.ok out) :
    out.head? = some a := by
  unfold put_string at h
  split at h
  · obtain rfl := Except.ok.inj h
    cases buf with
    | nil => simp at hh
    | cons x t => simpa using hh
  · exact Except.noConfusion h

/-- Appending bytes to a buffer whose first byte is `a` keeps `a` first. -/
theorem head_append_of_head (l m : Bytes) (a : Nat) (h : l.head? = some a) :
    (l ++ m).head? = some a := by
  cases l with
  | nil => simp at h
  | cons x t => simpa using h

/-- Every packet built by `Unlock::into_packet` carries its kind code as
the first payload byte. -/
theorem Unlock_shape (u : Unlock) (p : Packet) (h : u.into_packet = Except.ok p) :
    p.payload.head? = some (PacketKind.code p.kind) := by
  unfold Unlock.into_packet at h
  split at h
  · exact Except.noConfusion h
  · rename_i payload h1
    obtain rfl := Except.ok.inj h
    exact put_string_head [PacketKind.Unlock.code] u.passphrase payload
      PacketKind.Unlock.code rfl h1

/-- Every packet built by `Lock::into_packet` carries its kind code as the
first payload byte. -/
theorem Lock_shape (l : Lock) (p : Packet) (h : l.into_packet = Except.ok p) :
    p.payload.head? = some (PacketKind.code p.kind) := by
  unfold Lock.into_packet at h
  split at h
  · exact Except.noConfusion h
  · rename_i payload h1
    obtain rfl := Except.ok.inj h
    exact put_string_head [PacketKind.Lock.code] l.passphrase payload
      PacketKind.Lock.code rfl h1

/-- Every packet built by `RemoveIdentity::into_packet` carries its kind
code as the first payload byte. -/
theorem RemoveIdentity_shape (r : RemoveIdentity) (p : Packet)
    (h : r.into_packet = Except.ok p) :
    p.payload.head? = some (PacketKind.code p.kind) := by
  unfold RemoveIdentity.into_packet at h
  split at h
  · exact Except.noConfusion h
  · rename_i payload h1
    obtain rfl := Except.ok.inj h
    exact put_string_head [PacketKind.RemoveIdentity.code] r.key_blob payload
      PacketKind.RemoveIdentity.code rfl h1

/-- Every packet built by `AddIdentity::into_packet` carries its kind code
as the first payload byte. -/
theorem AddIdentity_shape (a : AddIdentity) (p : Packet)
    (h : a.into_packet = Except.ok p) :
    p.payload.head? = some (PacketKind.code p.kind) := by
  unfold AddIdentity.into_packet at h
  split at h
  · exact Except.noConfusion h
  · rename_i p1 h1
    split at h
    · exact Except.noConfusion h
    · rename_i p2 h2
      split at h
      · exact Except.noConfusion h
      · rename_i p3 h3
        obtain rfl := Except.ok.inj h
        have hh1 : p1.head? = some PacketKind.AddIdentity.code :=
          put_string_head [PacketKind.AddIdentity.code] a.kind p1
            PacketKind.AddIdentity.code rfl h1
        have hh2 : p2.head? = some PacketKind.AddIdentity.code :=
          put_string_head p1 a.key_blob p2 PacketKind.AddIdentity.code hh1 h2
        exact put_string_head p2 a.comment p3 PacketKind.AddIdentity.code hh2 h3

/-- Every packet built by `AddIdentityConstrained::into_packet` carries
its kind code as the first payload byte. -/
theorem AddIdentityConstrained_shape (a : AddIdentityConstrained) (p : Packet)
    (h : a.into_packet = Except.ok p) :
    p.payload.head? = some (PacketKind.code p.kind) := by
  unfold AddIdentityConstrained.into_packet at h
  split at h
  · exact Except.noConfusion h
  · rename_i p1 h1
    split at h
    · exact Except.noConfusion h
    · rename_i p2 h2
      split at h
      · exact Except.noConfusion h
      · rename_i p3 h3
        obtain rfl := Except.ok.inj h
        have hh1 : p1.head? = some PacketKind.AddIdConstrained.code :=
          put_string_head [PacketKind.AddIdConstrained.code] a.kind p1
            PacketKind.AddIdConstrained.code rfl h1
        have hh2 : p2.head? = some PacketKind.AddIdConstrained.code :=
          put_string_head p1 a.key_blob p2 PacketKind.AddIdConstrained.code hh1 h2
        have hh3 : p3.head? = some PacketKind.AddIdConstrained.code :=
          put_string_head p2 a.comment p3 PacketKind.AddIdConstrained.code hh2 h3
        exact head_append_of_head p3 a.constraints PacketKind.AddIdConstrained.code hh3

/-- Every packet built by `SignRequest::into_packet` carries its kind code
as the first payload byte. -/
theorem SignRequest_shape (s : SignRequest) (p : Packet)
    (h : s.into_packet = Except.ok p) :
    p.payload.head? = some (PacketKind.code p.kind) := by
  unfold SignRequest.into_packet at h
  split at h
  · exact Except.noConfusion h
  · rename_i p1 h1
    split at h
    · exact Except.noConfusion h
    · rename_i p2 h2
      obtain rfl := Except.ok.inj h
      have hh1 : p1.head? = some PacketKind.SignRequest.code :=
        put_string_head [PacketKind.SignRequest.code] s.key p1
          PacketKind.SignRequest.code rfl h1
      have hh2 : p2.head? = some PacketKind.SignRequest.code :=
        put_string_head p1 s.data p2 PacketKind.SignRequest.code hh1 h2
      exact head_append_of_head p2 (u32be s.flags) PacketKind.SignRequest.code hh2

/-- C9: for every `Packet` constructed for writing by a builder (every
packet that `handle_message` produces for a received `Message`, and in
particular every packet produced by `Unlock::into_packet`), the first byte
of its payload equals the numeric wire code of its kind field. -/
theorem claim_C9 (m : Message) (b : Bool) (p : Packet)
    (h : handle_message m = Except.ok (b, some p)) :
    p.payload.head? = some (PacketKind.code p.kind) := by
  cases m with
  | Add kind key_blob comment =>
    simp only [handle_message] at h
    split at h
    · exact Except.noConfusion h
    · rename_i pkt h1
      simp only [Except.ok.injEq, Prod.mk.injEq, Option.some.injEq] at h
      obtain ⟨hb, rfl⟩ := h
      exact AddIdentity_shape _ _ h1
  | AddConstrained kind key_blob comment constraints =>
    simp only [handle_message] at h
    split at h
    · exact Except.noConfusion h
    · rename_i pkt h1
      simp only [Except.ok.injEq, Prod.mk.injEq, Option.some.injEq] at h
      obtain ⟨hb, rfl⟩ := h
      exact AddIdentityConstrained_shape _ _ h1
  | Remove key_blob =>
    simp only [handle_message] at h
    split at h
    · exact Except.noConfusion h
    · rename_i pkt h1
      simp only [Except.ok.injEq, Prod.mk.injEq, Option.some.injEq] at h
      obtain ⟨hb, rfl⟩ := h
      exact RemoveIdentity_shape _ _ h1
  | RemoveAll =>
    simp only [handle_message] at h
    split at h
    · exact Except.noConfusion h
    · rename_i pkt h1
      simp only [Except.ok.injEq, Prod.mk.injEq, Option.some.injEq] at h
      obtain ⟨hb, rfl⟩ := h
      obtain rfl := Except.ok.inj h1.symm
      rfl
  | List =>
    simp only [handle_message] at h
    split at h
    · exact Except.noConfusion h
    · rename_i pkt h1
      simp only [Except.ok.injEq, Prod.mk.injEq, Option.some.injEq] at h
      obtain ⟨hb, rfl⟩ := h
      obtain rfl := Except.ok.inj h1.symm
      rfl
  | Sign key data flags =>
    simp only [handle_message] at h
    split at h
    · exact Except.noConfusion h
    · rename_i pkt h1
      simp only [Except.ok.injEq, Prod.mk.injEq, Option.some.injEq] at h
      obtain ⟨hb, rfl⟩ := h
      exact SignRequest_shape _ _ h1
  | Lock passphrase =>
    simp only [handle_message] at h
    split at h
    · exact Except.noConfusion h
    · rename_i pkt h1
      simp only [Except.ok.injEq, Prod.mk.injEq, Option.some.injEq] at h
      obtain ⟨hb, rfl⟩ := h
      exact Lock_shape _ _ h1
  | Unlock passphrase =>
    simp only [handle_message] at h
    split at h
    · exact Except.noConfusion h
    · rename_i pkt h1
      simp only [Except.ok.injEq, Prod.mk.injEq, Option.some.injEq] at h
      obtain ⟨hb, rfl⟩ := h
      exact Unlock_shape _ _ h1
  | Shutdown => simp only [handle_message, Except.ok.injEq, Prod.mk.injEq] at h; exact absurd h.2 (by simp)

/-- Witness for C9 at the `Unlock("test")` packet of the source's unit
test. -/
theorem claim_C9_witness :
    handle_message (Message.Unlock [116, 101, 115, 116]) =
      Except.ok (false,
        some (Packet.mk PacketKind.Unlock [23, 0, 0, 0, 4, 116, 101, 115, 116])) ∧
    (Packet.mk PacketKind.Unlock [23, 0, 0, 0, 4, 116, 101, 115, 116]).payload.head? =
      some (PacketKind.code
        (Packet.mk PacketKind.Unlock [23, 0, 0, 0, 4, 116, 101, 115, 116]).kind) :=
  ⟨rfl, claim_C9 (Message.Unlock [116, 101, 115, 116]) false _ rfl⟩

/-- Every received `Message` either is Shutdown — mapped to
`(disconnect, pkt_opt) = (true, None)` — or maps to exactly one built
packet `(false, Some pkt)`, unless its builder fails with an error. -/
theorem handle_message_cases (m : Message) :
    handle_message m = Except.ok (true, none) ∨
    (∃ e, handle_message m = Except.error e) ∨
    (∃ pkt, handle_message m = Except.ok (false, some pkt)) := by
  cases m with
  | Add kind key_blob comment =>
    cases hb : (AddIdentity.new kind key_blob comment).into_packet with
    | error e => exact Or.inr (Or.inl ⟨e, by simp [handle_message, hb]⟩)
    | ok pkt => exact Or.inr (Or.inr ⟨pkt, by simp [handle_message, hb]⟩)
  | AddConstrained kind key_blob comment constraints =>
    cases hb : (AddIdentityConstrained.new kind key_blob comment constraints).into_packet with
    | error e => exact Or.inr (Or.inl ⟨e, by simp [handle_message, hb]⟩)
    | ok pkt => exact Or.inr (Or.inr ⟨pkt, by simp [handle_message, hb]⟩)
  | Remove key_blob =>
    cases hb : (RemoveIdentity.new key_blob).into_packet with
    | error e => exact Or.inr (Or.inl ⟨e, by simp [handle_message, hb]⟩)
    | ok pkt => exact Or.inr (Or.inr ⟨pkt, by simp [handle_message, hb]⟩)
  | RemoveAll =>
    cases hb : RemoveAll.into_packet {} with
    | error e => exact Or.inr (Or.inl ⟨e, by simp [handle_message, hb]⟩)
    | ok pkt => exact Or.inr (Or.inr ⟨pkt, by simp [handle_message, hb]⟩)
  | List =>
    cases hb : RequestIdentities.into_packet {} with
    | error e => exact Or.inr (Or.inl ⟨e, by simp [handle_message, hb]⟩)
    | ok pkt => exact Or.inr (Or.inr ⟨pkt, by simp [handle_message, hb]⟩)
  | Sign key data flags =>
    cases hb : (SignRequest.new key data flags).into_packet with
    | error e => exact Or.inr (Or.inl ⟨e, by simp [handle_message, hb]⟩)
    | ok pkt => exact Or.inr (Or.inr ⟨pkt, by simp [handle_message, hb]⟩)
  | Lock passphrase =>
    cases hb : (Lock.new passphrase).into_packet with
    | error e => exact Or.inr (Or.inl ⟨e, by simp [handle_message, hb]⟩)
    | ok pkt => exact Or.inr (Or.inr ⟨pkt, by simp [handle_message, hb]⟩)
  | Unlock passphrase =>
    cases hb : (Unlock.new passphrase).into_packet with
    | error e => exact Or.inr (Or.inl ⟨e, by simp [handle_message, hb]⟩)
    | ok pkt => exact Or.inr (Or.inr ⟨pkt, by simp [handle_message, hb]⟩)
  | Shutdown => exact Or.inl rfl

/-- No `Message` maps to `(false, None)`: the combination that would reach
the final `else` of the message-handling if-chain never occurs. -/
theorem handle_message_no_fallback (m : Message) :
    handle_message m ≠ Except.ok (false, none) := by
  intro hm
  rcases handle_message_cases m with h | ⟨e, h⟩ | ⟨pkt, h⟩ <;> rw [hm] at h <;> simp at h

/-- One loop iteration never changes the `fallbackHit` marker: the final
`else` arm of the message-handling if-chain is unreachable. -/
theorem step_preserves_fallback (s : EngineState) (e : Event) :
    (StepOut.state (step s e)).fallbackHit = s.fallbackHit := by
  cases e with
  | ctl w =>
    cases hq : s.queue with
    | nil => by_cases hc : s.ctlClosed <;> simp [step, hq, hc, StepOut.state]
    | cons msg rest =>
      cases hm : handle_message msg with
      | error err => simp [step, hq, hm, StepOut.state]
      | ok pr =>
        obtain ⟨d, po⟩ := pr
        cases po with
        | none =>
          cases d with
          | false => exact absurd hm (handle_message_no_fallback msg)
          | true => simp [step, hq, hm, StepOut.state]
        | some pkt =>
          cases w with
          | error e2 => cases d <;> simp [step, hq, hm, StepOut.state]
          | ok u => cases d <;> simp [step, hq, hm, StepOut.state]
  | net r sendOk =>
    cases r with
    | ok pkt =>
      by_cases hr : pkt.kind.is_response <;>
        cases sendOk <;> simp [step, hr, StepOut.state]
    | error e2 => simp [step, StepOut.state]

/-- The loop of `Client::run` never changes the `fallbackHit` marker,
whatever the schedule. -/
theorem run_preserves_fallback (evs : List Event) (s : EngineState) :
    ((run s evs).2).fallbackHit = s.fallbackHit := by
  induction evs generalizing s with
  | nil => rfl
  | cons e rest ih =>
    have hp := step_preserves_fallback s e
    cases hst : step s e with
    | done r s2 =>
      rw [hst] at hp
      simpa [run, hst] using hp
    | next s2 =>
      rw [hst] at hp
      have := ih s2
      simp [run, hst, this]
      exact hp

/-- C10: in `Client::run`'s message-handling match, every received
`Message` either is Shutdown (yielding `disconnect = true` with no packet)
or yields exactly one built packet (or a builder error, which `?`
propagates); consequently the fallback branch that sets `disconnected`
without a Shutdown — the final `else` taken when no packet was built and
`disconnect` is false — is unreachable for every `Message` value and every
schedule of the loop. -/
theorem claim_C10 :
    (∀ m : Message,
      handle_message m = Except.ok (true, none) ∨
      (∃ e, handle_message m = Except.error e) ∨
      (∃ pkt, handle_message m = Except.ok (false, some pkt))) ∧
    (∀ (queue : List Message) (ctlClosed : Bool) (evs : List Event),
      ((run (initState queue ctlClosed) evs).2).fallbackHit = false) := by
  constructor
  · exact handle_message_cases
  · intro q c evs
    rw [run_preserves_fallback]
    rfl
